import Mathlib

/-!
Shallow embedding of the `sandboxed` repository's core: the language
lookup table (`pkg/k8sclient/templates`), the Kubernetes client wrappers
(`pkg/k8sclient/client.go`), the SDK lifecycle operations
(`pkg/sdk`: `CreateSandbox`, `NewInstance`, `Run`, `Exec`, `Destroy`)
and the MCP sandbox registry (`pkg/mcp/server.go`).

External effects (the Kubernetes API server, the SPDY exec stream) are
modelled by a `World` record of oracle functions; each SDK operation is
instrumented to also return the list of remote calls (`Event`s) it issued,
so that ordering / abort / "no remote call was made" properties can be
stated.  Go's `(T, error)` returns become `Except String T`, and a bare
`error` return becomes `Option String` (`none` = nil error).
-/

namespace Sandboxed

/-- Go `interface` values that the SDK's option map actually inspects:
it type-asserts `.(string)` for the "namespace" key and
`.(map[string]string)` for the "labels" key; anything else behaves like a
failed assertion. -/
inductive OptionValue where
  | str (s : String)
  | labels (m : List (String × String))
  | other
deriving DecidableEq, Repr

/-- `sdk.SandboxOption`: a named configuration value. -/
structure SandboxOption where
  name : String
  value : OptionValue
deriving DecidableEq, Repr

/-- The Go code folds the option slice into `map[string]interface\x7b\x7d`
(later entries overwrite earlier ones); we model the resulting map as a
lookup function. -/
def mapOptions (opts : List SandboxOption) : String → Option OptionValue :=
  opts.foldl (fun m o => fun k => if k = o.name then some o.value else m k)
    (fun _ => none)

/-- The namespace computation repeated in `CreateSandbox`, `Run`, `Exec`,
`Destroy`: `ns, ok := mapOptions["namespace"].(string); if ok ... else
"default"`. -/
def namespaceOf (opts : List SandboxOption) : String :=
  match mapOptions opts "namespace" with
  | some (OptionValue.str s) => s
  | _ => "default"

/-- The label computation in `CreateSandbox`: a successful
`.(map[string]string)` assertion gets `created-by=sandboxed-sdk` appended,
a failed one yields the empty map. -/
def labelsOf (opts : List SandboxOption) : List (String × String) :=
  match mapOptions opts "labels" with
  | some (OptionValue.labels m) => m ++ [("created-by", "sandboxed-sdk")]
  | _ => []

/-- `templates.LanguageLookup`: the static language → Docker image table. -/
def LanguageLookup (lang : String) : Except String String :=
  if lang = "go" then Except.ok "golang:1.24"
  else if lang = "python" then Except.ok "python:3.9"
  else if lang = "node" then Except.ok "node:14"
  else if lang = "java" then Except.ok "openjdk:11"
  else if lang = "ruby" then Except.ok "ruby:2.7"
  else if lang = "php" then Except.ok "php:8.0"
  else if lang = "rust" then Except.ok "rust:1.56"
  else Except.error ("unsupported language: " ++ lang)

/-- The keys of `templates.LanguageLookup`'s table. -/
def supportedLanguages : List String :=
  ["go", "python", "node", "java", "ruby", "php", "rust"]

/-- `sdk.ToLanguage`: validates a language string against the lookup
table and returns it unchanged. -/
def ToLanguage (lang : String) : Except String String :=
  match LanguageLookup lang with
  | Except.error e => Except.error e
  | Except.ok _ => Except.ok lang

/-- `sdk.Language.GetExecScript`: the per-language interpreter invocation
used by `Exec`'s third step (`""` for the default case). -/
def GetExecScript (l : String) : String :=
  if l = "python" then "python3 /tmp/exec_script.sh"
  else if l = "go" then "go run /tmp/exec_script.go"
  else if l = "node" then "node /tmp/exec_script.js"
  else if l = "java" then "javac /tmp/ExecScript.java && java -cp /tmp ExecScript"
  else if l = "ruby" then "ruby /tmp/exec_script.rb"
  else if l = "php" then "php /tmp/exec_script.php"
  else if l = "rust" then "rustc /tmp/exec_script.rs -o /tmp/exec_script && /tmp/exec_script"
  else ""

/-- `sdk.Output`: result text, error text and exit code of one execution. -/
structure Output where
  Result : String
  Error : String
  ExitCode : Int
deriving DecidableEq, Repr

/-- The fields of `sdk.sandboxedImpl` together with the fields of its
`LanguageContainer` that the lifecycle operations read (`lc.name`,
`lc.language`, `lc.opts`). -/
structure Handle where
  driver : String
  id : String
  lcName : String
  lcLanguage : String
  opts : List SandboxOption
deriving DecidableEq, Repr

/-- `metav1.DeleteOptions` as populated by `DeletePodWithOptions`. -/
structure DeleteOptions where
  gracePeriodSeconds : Option Int
  propagationPolicy : Option String
deriving DecidableEq, Repr

/-- Outcome of one `ExecInPod` stream: whatever the remote side wrote into
the stdout and stderr buffers (possibly partial), and the transport error
if the stream failed. -/
structure ExecOutcome where
  stdout : String
  stderr : String
  err : Option String
deriving DecidableEq, Repr

/-- Oracles for the external collaborators: kubeconfig-based client
construction, the Kubernetes pod API (create / wait-ready / delete) and
the SPDY exec stream.  `Option String` is the returned Go error
(`none` = success). -/
structure World where
  newClient : String → Option String
  createPod : String → String → String → List (String × String) → Option String
  waitReady : String → String → Nat → Option String
  execStream : String → String → List String → ExecOutcome
  podDelete : String → String → DeleteOptions → Option String

/-- One remote call issued by an SDK operation (for stating ordering and
"no remote call happened" properties). -/
inductive Event where
  | newClient (ns : String)
  | createPod (podName ns image : String) (labels : List (String × String))
  | waitForPodReady (podName ns : String) (timeoutSeconds : Nat)
  | execCmd (podName ns : String) (argv : List String)
  | podDelete (podName ns : String) (force : Bool)
deriving DecidableEq, Repr

/-- `k8sclient.NewClient` stores `"default"` when called with the empty
namespace. -/
def clientNamespace (ns : String) : String :=
  if ns = "" then "default" else ns

/-- `k8sclient.Client.ExecCommand`: runs the command through the exec
stream with fresh stdout/stderr buffers; a transport error is wrapped as
`exec failed: <err>, stderr: <stderr>` and no output is returned,
otherwise the accumulated stdout is returned. -/
def ExecCommand (w : World) (clientNs podName ns : String) (command : List String) :
    Except String String :=
  let ns2 := if ns = "" then clientNs else ns
  let o := w.execStream podName ns2 command
  match o.err with
  | some e => Except.error ("exec failed: " ++ e ++ ", stderr: " ++ o.stderr)
  | none => Except.ok o.stdout

/-- `k8sclient.Client.DeletePodWithOptions`: `force` sets grace period 0
and Foreground propagation; any error from the API delete (a "not found"
included) is wrapped and returned. -/
def DeletePodWithOptions (w : World) (clientNs name ns : String) (force : Bool) :
    Option String :=
  let ns2 := if ns = "" then clientNs else ns
  let dopts : DeleteOptions :=
    if force then { gracePeriodSeconds := some 0, propagationPolicy := some "Foreground" }
    else { gracePeriodSeconds := none, propagationPolicy := none }
  match w.podDelete name ns2 dopts with
  | some e => some ("failed to delete pod " ++ name ++ " in namespace " ++ ns2 ++ ": " ++ e)
  | none => none

/-- `k8sclient.Client.ForceDeletePod`. -/
def ForceDeletePod (w : World) (clientNs name ns : String) : Option String :=
  DeletePodWithOptions w clientNs name ns true

/-- `sdk.CreateSandbox`: resolve the language first; only then construct a
client, create the pod `sandboxed-<name>` and wait (120s) for readiness.
Returns the handle and the remote calls issued. -/
def CreateSandbox (w : World) (name lang : String) (opts : List SandboxOption) :
    Except String Handle × List Event :=
  match LanguageLookup lang with
  | Except.error e => (Except.error e, [])
  | Except.ok image =>
    let ns := namespaceOf opts
    let podName := "sandboxed-" ++ name
    match w.newClient ns with
    | some e => (Except.error e, [Event.newClient ns])
    | none =>
      let lbls := labelsOf opts
      let ev2 := [Event.newClient ns, Event.createPod podName ns image lbls]
      match w.createPod podName ns image lbls with
      | some e => (Except.error e, ev2)
      | none =>
        let ev3 := ev2 ++ [Event.waitForPodReady podName ns 120]
        match w.waitReady podName ns 120 with
        | some e => (Except.error e, ev3)
        | none =>
          (Except.ok { driver := "kubernetes", id := podName, lcName := name,
                       lcLanguage := lang, opts := opts }, ev3)

/-- `sdk.NewInstance`: wraps an existing pod id; the `LanguageContainer`'s
name and language fields are left at their zero value (commented out in
the source). -/
def NewInstance (id : String) (opts : List SandboxOption) : Handle :=
  { driver := "kubernetes", id := id, lcName := "", lcLanguage := "", opts := opts }

/-- `sdk.sandboxedImpl.Run`: one `sh -c <code>` exec against the pod named
by the handle's `id` field; a successful transport yields
`Output(Result, Error: "", ExitCode: 0)`. -/
def Run (w : World) (s : Handle) (code : String) : Except String Output × List Event :=
  let ns := namespaceOf s.opts
  let podName := s.id
  if s.driver = "kubernetes" then
    match w.newClient ns with
    | some e => (Except.error e, [Event.newClient ns])
    | none =>
      let cmd := ["sh", "-c", code]
      let evs := [Event.newClient ns, Event.execCmd podName ns cmd]
      match ExecCommand w (clientNamespace ns) podName ns cmd with
      | Except.error e => (Except.error e, evs)
      | Except.ok o => (Except.ok { Result := o, Error := "", ExitCode := 0 }, evs)
  else (Except.error ("unsupported driver: " ++ s.driver), [])

/-- The fixed path `Exec` writes the script body to. -/
def execScriptFilename : String := "/tmp/exec_script.sh"

/-- `Exec`'s first step: heredoc-write the script body to
`execScriptFilename`. -/
def writeCmd (commands : String) : List String :=
  ["sh", "-c", "cat > " ++ execScriptFilename ++ " << \x27EOF\x27\n" ++ commands ++ "\nEOF"]

/-- `Exec`'s second step: mark the written file executable. -/
def chmodCmd : List String :=
  ["sh", "-c", "chmod +x " ++ execScriptFilename]

/-- `sdk.sandboxedImpl.Exec`: write the script body, chmod it, then run
the language-specific interpreter command; each step is a separate exec
round-trip and the first failure aborts the sequence. -/
def Exec (w : World) (s : Handle) (commands : String) : Except String Output × List Event :=
  let ns := namespaceOf s.opts
  let podName := s.id
  if s.driver = "kubernetes" then
    match w.newClient ns with
    | some e => (Except.error e, [Event.newClient ns])
    | none =>
      let cns := clientNamespace ns
      let wc := writeCmd commands
      let ev1 := [Event.newClient ns, Event.execCmd podName ns wc]
      match ExecCommand w cns podName ns wc with
      | Except.error e => (Except.error e, ev1)
      | Except.ok _ =>
        let ev2 := ev1 ++ [Event.execCmd podName ns chmodCmd]
        match ExecCommand w cns podName ns chmodCmd with
        | Except.error e => (Except.error e, ev2)
        | Except.ok _ =>
          match ToLanguage s.lcLanguage with
          | Except.error e => (Except.error e, ev2)
          | Except.ok lt =>
            let rc := ["sh", "-c", GetExecScript lt]
            let ev3 := ev2 ++ [Event.execCmd podName ns rc]
            match ExecCommand w cns podName ns rc with
            | Except.error e => (Except.error e, ev3)
            | Except.ok o => (Except.ok { Result := o, Error := "", ExitCode := 0 }, ev3)
  else (Except.error ("unsupported driver: " ++ s.driver), [])

/-- `sdk.sandboxedImpl.Destroy`: force-delete the pod named
`"sandboxed-" ++ lc.name` and return whatever `ForceDeletePod` returns. -/
def Destroy (w : World) (s : Handle) : Option String × List Event :=
  let ns := namespaceOf s.opts
  if s.driver = "kubernetes" then
    match w.newClient ns with
    | some e => (some e, [Event.newClient ns])
    | none =>
      let podName := "sandboxed-" ++ s.lcName
      (ForceDeletePod w (clientNamespace ns) podName ns,
       [Event.newClient ns, Event.podDelete podName ns true])
  else (some ("unsupported driver: " ++ s.driver), [])

/-- The exec argvs among a list of remote calls, in order. -/
def execArgvs (evs : List Event) : List (List String) :=
  evs.filterMap (fun e =>
    match e with
    | Event.execCmd _ _ argv => some argv
    | _ => none)

/-- The pods targeted by exec calls among a list of remote calls. -/
def execTargets (evs : List Event) : List String :=
  evs.filterMap (fun e =>
    match e with
    | Event.execCmd p _ _ => some p
    | _ => none)

/-- The pods targeted by delete calls among a list of remote calls. -/
def deleteTargets (evs : List Event) : List String :=
  evs.filterMap (fun e =>
    match e with
    | Event.podDelete p _ _ => some p
    | _ => none)

/-- One pod readiness condition (`type`/`status` as strings, matching
`corev1.PodReady = "Ready"` and `corev1.ConditionTrue = "True"`). -/
structure PodCondition where
  condType : String
  condStatus : String
deriving DecidableEq, Repr

/-- The slice of status conditions `WaitForPodReady` inspects. -/
structure PodStatus where
  conditions : List PodCondition
deriving DecidableEq, Repr

/-- The ready check inside `WaitForPodReady`'s loop: some condition has
type `Ready` and status `True`. -/
def podIsReady (p : PodStatus) : Bool :=
  p.conditions.any (fun c => c.condType = "Ready" && c.condStatus = "True")

/-- The timeout error message of `WaitForPodReady`. -/
def timeoutMsg (name : String) : String :=
  "timeout waiting for pod " ++ name ++ " to be ready"

/-- `k8sclient.Client.WaitForPodReady`'s loop, with time made explicit:
`getPod j` is the `j`-th status fetch (fetches are modelled as
instantaneous), the `j`-th fetch happens at elapsed time `2*j` seconds
because the loop sleeps a fixed 2 seconds after each non-ready fetch, and
the context's deadline fires once the elapsed time reaches `timeout`.
Returns the loop's result together with the elapsed times of the fetches
it performed. -/
def WaitForPodReadyAux (getPod : Nat → Except String PodStatus) (name : String)
    (timeout : Nat) (i : Nat) : Except String Unit × List Nat :=
  if _h : timeout ≤ 2 * i then
    (Except.error (timeoutMsg name), [])
  else
    match getPod i with
    | Except.error e => (Except.error e, [2 * i])
    | Except.ok p =>
      if podIsReady p then (Except.ok (), [2 * i])
      else
        ((WaitForPodReadyAux getPod name timeout (i + 1)).1,
         2 * i :: (WaitForPodReadyAux getPod name timeout (i + 1)).2)
termination_by timeout - 2 * i
decreasing_by all_goals omega

/-- `k8sclient.Client.WaitForPodReady`, started at elapsed time 0. -/
def WaitForPodReady (getPod : Nat → Except String PodStatus) (name : String)
    (timeout : Nat) : Except String Unit × List Nat :=
  WaitForPodReadyAux getPod name timeout 0

/-- `mcp.SandboxManager`'s state: the `sandboxes` map, modelled as an
association list with map semantics (insert replaces, lookup finds the
entry, the key list is the map's key set). -/
structure SandboxManager (α : Type) where
  sandboxes : List (String × α)

/-- `mcp.SandboxManager.AddSandbox`: `sm.sandboxes[name] = sandbox`. -/
def AddSandbox {α : Type} (sm : SandboxManager α) (name : String) (sandbox : α) :
    SandboxManager α :=
  { sandboxes := (name, sandbox) :: sm.sandboxes.filter (fun p => p.1 != name) }

/-- `mcp.SandboxManager.GetSandbox`: map lookup, returning the handle and
whether it was found (`some` = found). -/
def GetSandbox {α : Type} (sm : SandboxManager α) (name : String) : Option α :=
  (sm.sandboxes.find? (fun p => p.1 == name)).map (fun p => p.2)

/-- `mcp.SandboxManager.RemoveSandbox`: `delete(sm.sandboxes, name)`. -/
def RemoveSandbox {α : Type} (sm : SandboxManager α) (name : String) :
    SandboxManager α :=
  { sandboxes := sm.sandboxes.filter (fun p => p.1 != name) }

/-- `mcp.SandboxManager.ListSandboxes`: the key set of the map. -/
def ListSandboxes {α : Type} (sm : SandboxManager α) : List String :=
  sm.sandboxes.map (fun p => p.1)

/-! Concrete worlds used as evaluation points. -/

/-- A world where every remote call succeeds and every exec stream returns
stdout `"out"`. -/
def wOk : World where
  newClient := fun _ => none
  createPod := fun _ _ _ _ => none
  waitReady := fun _ _ _ => none
  execStream := fun _ _ _ => { stdout := "out", stderr := "", err := none }
  podDelete := fun _ _ _ => none

/-- A world whose exec stream always fails mid-stream with partial output
on both channels. -/
def wErr : World where
  newClient := fun _ => none
  createPod := fun _ _ _ _ => none
  waitReady := fun _ _ _ => none
  execStream := fun _ _ _ =>
    { stdout := "partial", stderr := "boom-stderr", err := some "broken stream" }
  podDelete := fun _ _ _ => none

/-- A world whose exec stream fails exactly on the chmod step of `Exec`. -/
def wChmodFail : World where
  newClient := fun _ => none
  createPod := fun _ _ _ _ => none
  waitReady := fun _ _ _ => none
  execStream := fun _ _ argv =>
    if argv = chmodCmd then { stdout := "", stderr := "", err := some "chmod fail" }
    else { stdout := "", stderr := "", err := none }
  podDelete := fun _ _ _ => none

/-- A world whose pod-delete API reports the pod as not found (the state
after the backing pod is already gone). -/
def wNotFound : World where
  newClient := fun _ => none
  createPod := fun _ _ _ _ => none
  waitReady := fun _ _ _ => none
  execStream := fun _ _ _ => { stdout := "", stderr := "", err := none }
  podDelete := fun name _ _ => some ("pods \"" ++ name ++ "\" not found")

/-- The handle `CreateSandbox` builds for name `s1`, language `go` (all
remote calls succeeding). -/
def goHandle : Handle :=
  { driver := "kubernetes", id := "sandboxed-s1", lcName := "s1",
    lcLanguage := "go", opts := [] }

/-- A status trace whose pod is never ready (no conditions at all). -/
def gpNeverReady : Nat → Except String PodStatus :=
  fun _ => Except.ok { conditions := [] }

/-- The handle `CreateSandbox` builds for name `s1`, language `python`. -/
def s1Handle : Handle :=
  { driver := "kubernetes", id := "sandboxed-s1", lcName := "s1",
    lcLanguage := "python", opts := [] }

/-- The handle `CreateSandbox` builds for name `s2`, language `python`. -/
def s2Handle : Handle :=
  { driver := "kubernetes", id := "sandboxed-s2", lcName := "s2",
    lcLanguage := "python", opts := [] }

/-!  ## Claims  -/

/-- C7: the language resolver is a pure deterministic total function: on
each of the seven supported languages it returns the fixed image of the
static table, and on every other string it returns the
`unsupported language` error.  (Purity and determinism are inherent: the
embedding is a Lean function of its argument alone.) -/
theorem c7_language_lookup_total :
    (LanguageLookup "go" = Except.ok "golang:1.24" ∧
     LanguageLookup "python" = Except.ok "python:3.9" ∧
     LanguageLookup "node" = Except.ok "node:14" ∧
     LanguageLookup "java" = Except.ok "openjdk:11" ∧
     LanguageLookup "ruby" = Except.ok "ruby:2.7" ∧
     LanguageLookup "php" = Except.ok "php:8.0" ∧
     LanguageLookup "rust" = Except.ok "rust:1.56") ∧
    ∀ lang : String, lang ∉ supportedLanguages →
      LanguageLookup lang = Except.error ("unsupported language: " ++ lang) := by
  refine ⟨⟨rfl, rfl, rfl, rfl, rfl, rfl, rfl⟩, ?_⟩
  intro lang hmem
  simp only [supportedLanguages, List.mem_cons, List.not_mem_nil, or_false, not_or] at hmem
  obtain ⟨h1, h2, h3, h4, h5, h6, h7⟩ := hmem
  simp [LanguageLookup, h1, h2, h3, h4, h5, h6, h7]

/-- C7 witness: `cobol` is rejected with the `unsupported language`
error. -/
theorem c7_witness :
    LanguageLookup "cobol" = Except.error ("unsupported language: " ++ "cobol") :=
  c7_language_lookup_total.2 "cobol" (by decide)

/-- C2: whenever `Run` returns a non-error result, that result's exit
code is 0 and its error text is empty — the exit code is normalized to 0
on any non-erroring transport. -/
theorem c2_run_normalizes_exit_code (w : World) (s : Handle) (code : String)
    (o : Output) (h : (Run w s code).1 = Except.ok o) :
    o.ExitCode = 0 ∧ o.Error = "" := by
  simp only [Run] at h
  split at h
  · split at h
    · simp at h
    · split at h
      · simp at h
      · simp only [Except.ok.injEq] at h
        subst h
        exact ⟨rfl, rfl⟩
  · simp at h

/-- C2 witness: in a world whose exec transport succeeds with output
`out`, `Run` returns a result, and the theorem yields exit code 0 and
empty error text for it. -/
theorem c2_witness :
    (Run wOk (NewInstance "pod-a" []) "ls").1 =
      Except.ok { Result := "out", Error := "", ExitCode := 0 } ∧
    ({ Result := "out", Error := "", ExitCode := 0 } : Output).ExitCode = 0 ∧
    ({ Result := "out", Error := "", ExitCode := 0 } : Output).Error = "" := by
  refine ⟨rfl, ?_, ?_⟩
  · exact (c2_run_normalizes_exit_code wOk (NewInstance "pod-a" []) "ls" _ rfl).1
  · exact (c2_run_normalizes_exit_code wOk (NewInstance "pod-a" []) "ls" _ rfl).2

/-- C8: when the language does not resolve, `CreateSandbox` returns the
resolution error and issues no remote call at all: no client
construction, no pod creation, no readiness wait (the event list is
empty). -/
theorem c8_unsupported_language_no_remote_calls (w : World) (name lang : String)
    (opts : List SandboxOption) (e : String)
    (h : LanguageLookup lang = Except.error e) :
    CreateSandbox w name lang opts = (Except.error e, []) := by
  simp only [CreateSandbox]
  rw [h]

/-- C8 witness: `CreateSandbox("s2", "cobol", [])` fails with the
resolution error and an empty remote-call list. -/
theorem c8_witness :
    CreateSandbox wOk "s2" "cobol" [] =
      (Except.error ("unsupported language: " ++ "cobol"), []) :=
  c8_unsupported_language_no_remote_calls wOk "s2" "cobol" []
    ("unsupported language: " ++ "cobol") rfl

/-- C9: for every registry state, after `AddSandbox n h` the registry
lists `n` and `GetSandbox n` finds `h`; after `RemoveSandbox n` the
registry does not list `n` and `GetSandbox n` reports not-found. -/
theorem c9_registry_add_get_remove {α : Type} (sm : SandboxManager α)
    (n : String) (hdl : α) :
    GetSandbox (AddSandbox sm n hdl) n = some hdl ∧
    n ∈ ListSandboxes (AddSandbox sm n hdl) ∧
    GetSandbox (RemoveSandbox sm n) n = none ∧
    n ∉ ListSandboxes (RemoveSandbox sm n) := by
  refine ⟨?_, ?_, ?_, ?_⟩
  · simp [GetSandbox, AddSandbox]
  · simp [ListSandboxes, AddSandbox]
  · have hfind : List.find? (fun p => p.1 == n)
        (sm.sandboxes.filter (fun p => p.1 != n)) = none := by
      rw [List.find?_eq_none]
      intro p hp
      simpa using (List.mem_filter.1 hp).2
    simp [GetSandbox, RemoveSandbox, hfind]
  · simp only [ListSandboxes, RemoveSandbox, List.mem_map, not_exists, not_and]
    intro p hp
    rcases List.mem_filter.1 hp with ⟨_, hne⟩
    intro hEq
    simp [hEq] at hne

/-- C6: when the exec transport fails, `Run` returns an error whose
message has the captured error-channel (stderr) output as a suffix (never
a partial-output result presented as complete), and this error outcome is
never an `Output` value — in particular not one with a non-zero exit
code. -/
theorem c6_transport_error_surfaces_stderr (w : World) (s : Handle) (code e : String)
    (hdrv : s.driver = "kubernetes")
    (hcli : w.newClient (namespaceOf s.opts) = none)
    (herr : (w.execStream s.id
        (if namespaceOf s.opts = "" then clientNamespace (namespaceOf s.opts)
         else namespaceOf s.opts) ["sh", "-c", code]).err = some e) :
    ∃ msg,
      (Run w s code).1 = Except.error msg ∧
      (∃ pre, msg = pre ++ (w.execStream s.id
          (if namespaceOf s.opts = "" then clientNamespace (namespaceOf s.opts)
           else namespaceOf s.opts) ["sh", "-c", code]).stderr) ∧
      ∀ o : Output, (Run w s code).1 ≠ Except.ok o := by
  have hrun : (Run w s code).1 =
      Except.error ("exec failed: " ++ e ++ ", stderr: " ++
        (w.execStream s.id
          (if namespaceOf s.opts = "" then clientNamespace (namespaceOf s.opts)
           else namespaceOf s.opts) ["sh", "-c", code]).stderr) := by
    simp [Run, ExecCommand, hdrv, hcli, herr]
  refine ⟨_, hrun, ⟨"exec failed: " ++ e ++ ", stderr: ", rfl⟩, ?_⟩
  intro o
  rw [hrun]
  simp

/-- C6 witness: a broken stream with partial stderr `boom-stderr` makes
`Run` fail with a message ending in that stderr text, and the result is
not an `Output`. -/
theorem c6_witness :
    ∃ msg,
      (Run wErr (NewInstance "pod-b" []) "ls").1 = Except.error msg ∧
      (∃ pre, msg = pre ++ "boom-stderr") ∧
      ∀ o : Output, (Run wErr (NewInstance "pod-b" []) "ls").1 ≠ Except.ok o :=
  c6_transport_error_surfaces_stderr wErr (NewInstance "pod-b" []) "ls"
    "broken stream" rfl rfl rfl

/-- C5: `Exec`'s three remote steps happen in the order write, chmod, run;
a failing step's wrapped error is returned and no later step (and no
rollback call) is issued: the exec calls actually made are exactly the
prefix of `[writeCmd, chmodCmd, runCmd]` up to and including the failing
step. -/
theorem c5_exec_abort_on_first_failure (w : World) (s : Handle) (commands : String)
    (hdrv : s.driver = "kubernetes")
    (hcli : w.newClient (namespaceOf s.opts) = none) :
    (∀ e, ExecCommand w (clientNamespace (namespaceOf s.opts)) s.id (namespaceOf s.opts)
          (writeCmd commands) = Except.error e →
        (Exec w s commands).1 = Except.error e ∧
        execArgvs (Exec w s commands).2 = [writeCmd commands]) ∧
    (∀ o1 e, ExecCommand w (clientNamespace (namespaceOf s.opts)) s.id (namespaceOf s.opts)
          (writeCmd commands) = Except.ok o1 →
        ExecCommand w (clientNamespace (namespaceOf s.opts)) s.id (namespaceOf s.opts)
          chmodCmd = Except.error e →
        (Exec w s commands).1 = Except.error e ∧
        execArgvs (Exec w s commands).2 = [writeCmd commands, chmodCmd]) ∧
    (∀ o1 o2 lt e, ExecCommand w (clientNamespace (namespaceOf s.opts)) s.id
          (namespaceOf s.opts) (writeCmd commands) = Except.ok o1 →
        ExecCommand w (clientNamespace (namespaceOf s.opts)) s.id (namespaceOf s.opts)
          chmodCmd = Except.ok o2 →
        ToLanguage s.lcLanguage = Except.ok lt →
        ExecCommand w (clientNamespace (namespaceOf s.opts)) s.id (namespaceOf s.opts)
          ["sh", "-c", GetExecScript lt] = Except.error e →
        (Exec w s commands).1 = Except.error e ∧
        execArgvs (Exec w s commands).2 =
          [writeCmd commands, chmodCmd, ["sh", "-c", GetExecScript lt]]) ∧
    (∀ o1 o2 lt o3, ExecCommand w (clientNamespace (namespaceOf s.opts)) s.id
          (namespaceOf s.opts) (writeCmd commands) = Except.ok o1 →
        ExecCommand w (clientNamespace (namespaceOf s.opts)) s.id (namespaceOf s.opts)
          chmodCmd = Except.ok o2 →
        ToLanguage s.lcLanguage = Except.ok lt →
        ExecCommand w (clientNamespace (namespaceOf s.opts)) s.id (namespaceOf s.opts)
          ["sh", "-c", GetExecScript lt] = Except.ok o3 →
        (Exec w s commands).1 = Except.ok { Result := o3, Error := "", ExitCode := 0 } ∧
        execArgvs (Exec w s commands).2 =
          [writeCmd commands, chmodCmd, ["sh", "-c", GetExecScript lt]]) := by
  refine ⟨?_, ?_, ?_, ?_⟩
  · intro e h1
    constructor <;> simp [Exec, execArgvs, hdrv, hcli, h1]
  · intro o1 e h1 h2
    constructor <;> simp [Exec, execArgvs, hdrv, hcli, h1, h2]
  · intro o1 o2 lt e h1 h2 h3 h4
    constructor <;> simp [Exec, execArgvs, hdrv, hcli, h1, h2, h3, h4]
  · intro o1 o2 lt o3 h1 h2 h3 h4
    constructor <;> simp [Exec, execArgvs, hdrv, hcli, h1, h2, h3, h4]

/-- C5 witness: with a world whose chmod step fails, `Exec` returns that
step's wrapped error and issues exactly the write and chmod calls, in
that order. -/
theorem c5_witness :
    (Exec wChmodFail (NewInstance "pod-c" []) "body").1 =
      Except.error ("exec failed: " ++ "chmod fail" ++ ", stderr: " ++ "") ∧
    execArgvs (Exec wChmodFail (NewInstance "pod-c" []) "body").2 =
      [writeCmd "body", chmodCmd] :=
  (c5_exec_abort_on_first_failure wChmodFail (NewInstance "pod-c" []) "body" rfl rfl).2.1
    "" ("exec failed: " ++ "chmod fail" ++ ", stderr: " ++ "") rfl rfl

/-- C1 counterexample: with the backing pod already gone (the pod API
delete reports "not found"), `Destroy` returns an error — the "not found"
is wrapped by `DeletePodWithOptions`, not swallowed, so a repeated
`Destroy` does not return success. -/
theorem c1_counterexample :
    (Destroy wNotFound s1Handle).1 =
      some ("failed to delete pod " ++ "sandboxed-s1" ++ " in namespace " ++ "default" ++
        ": " ++ ("pods \"" ++ "sandboxed-s1" ++ "\" not found")) ∧
    ((Destroy wNotFound s1Handle).1).isSome = true :=
  ⟨rfl, rfl⟩

/-- C1 amended: `Destroy` issues a forced delete (grace period 0,
Foreground propagation) for pod `sandboxed-<name>`, and any error from
the remote delete — a "not found" included — is wrapped as
`failed to delete pod ...` and returned; a missing remote object is an
error, not a successful destroy. -/
theorem c1_amended_destroy_propagates_delete_error (w : World) (s : Handle) (e : String)
    (hdrv : s.driver = "kubernetes")
    (hcli : w.newClient (namespaceOf s.opts) = none)
    (hdel : w.podDelete ("sandboxed-" ++ s.lcName)
        (if namespaceOf s.opts = "" then clientNamespace (namespaceOf s.opts)
         else namespaceOf s.opts)
        { gracePeriodSeconds := some 0, propagationPolicy := some "Foreground" } =
        some e) :
    (Destroy w s).1 =
      some ("failed to delete pod " ++ ("sandboxed-" ++ s.lcName) ++ " in namespace " ++
        (if namespaceOf s.opts = "" then clientNamespace (namespaceOf s.opts)
         else namespaceOf s.opts) ++ ": " ++ e) := by
  simp [Destroy, ForceDeletePod, DeletePodWithOptions, hdrv, hcli, hdel]

/-- C1 witness for the amended claim: a "not found" delete result is
wrapped and returned by `Destroy`. -/
theorem c1_witness :
    (Destroy wNotFound s2Handle).1 =
      some ("failed to delete pod " ++ ("sandboxed-" ++ "s2") ++ " in namespace " ++
        "default" ++ ": " ++ ("pods \"" ++ "sandboxed-s2" ++ "\" not found")) := by
  have h := c1_amended_destroy_propagates_delete_error wNotFound s2Handle
      ("pods \"" ++ "sandboxed-s2" ++ "\" not found") rfl rfl rfl
  simpa [s2Handle] using h

/-- C4: the script body is always written (and chmodded) at the fixed
path `/tmp/exec_script.sh`, but only python's interpreter invocation
targets that path; for `go` (as for node, java, ruby, php, rust) the
interpreter is invoked on a different path that `Exec` never wrote —
evaluated here on the full `Exec` call trace for a `go` sandbox. -/
theorem c4_exec_interpreter_path_mismatch :
    execScriptFilename = "/tmp/exec_script.sh" ∧
    GetExecScript "python" = "python3 /tmp/exec_script.sh" ∧
    GetExecScript "go" = "go run /tmp/exec_script.go" ∧
    decide (List.IsInfix execScriptFilename.data (GetExecScript "python").data) = true ∧
    decide (List.IsInfix execScriptFilename.data (GetExecScript "go").data) = false ∧
    execArgvs (Exec wOk goHandle "body").2 =
      [writeCmd "body", chmodCmd, ["sh", "-c", "go run /tmp/exec_script.go"]] := by
  exact ⟨rfl, rfl, rfl, by decide, by decide, rfl⟩

/-- C10 counterexample: for the handle `NewInstance "sandboxed-"`, the
pod `Destroy` deletes and the pod `Run` execs into are the same
(`sandboxed-` = `sandboxed-` ++ empty creation name), so the two targets
do not differ for every `NewInstance` handle. -/
theorem c10_counterexample :
    execTargets (Run wOk (NewInstance "sandboxed-" []) "ls").2 = ["sandboxed-"] ∧
    deleteTargets (Destroy wOk (NewInstance "sandboxed-" [])).2 = ["sandboxed-"] :=
  ⟨rfl, rfl⟩

/-- Helper for C10: every exec round-trip issued by `Exec` — whichever of
the write/chmod/run steps are reached — targets the pod named by the
handle's `id` field, and at least the write call is issued. -/
theorem exec_targets_handle_id (w : World) (s : Handle) (commands : String)
    (hdrv : s.driver = "kubernetes")
    (hcli : w.newClient (namespaceOf s.opts) = none) :
    (execTargets (Exec w s commands).2).head? = some s.id ∧
    ∀ p ∈ execTargets (Exec w s commands).2, p = s.id := by
  cases h1 : ExecCommand w (clientNamespace (namespaceOf s.opts)) s.id
      (namespaceOf s.opts) (writeCmd commands) with
  | error e =>
    constructor <;> simp [Exec, execTargets, hdrv, hcli, h1]
  | ok o1 =>
    cases h2 : ExecCommand w (clientNamespace (namespaceOf s.opts)) s.id
        (namespaceOf s.opts) chmodCmd with
    | error e =>
      constructor <;> simp [Exec, execTargets, hdrv, hcli, h1, h2]
    | ok o2 =>
      cases h3 : ToLanguage s.lcLanguage with
      | error e =>
        constructor <;> simp [Exec, execTargets, hdrv, hcli, h1, h2, h3]
      | ok lt =>
        cases h4 : ExecCommand w (clientNamespace (namespaceOf s.opts)) s.id
            (namespaceOf s.opts) ["sh", "-c", GetExecScript lt] with
        | error e =>
          constructor <;> simp [Exec, execTargets, hdrv, hcli, h1, h2, h3, h4]
        | ok o3 =>
          constructor <;> simp [Exec, execTargets, hdrv, hcli, h1, h2, h3, h4]

/-- C10 amended: `Run` and `Exec` exec into the pod named by the handle's
`id` field while `Destroy` deletes `sandboxed-` ++ creation name; the
targets coincide for every `CreateSandbox` handle, and for a
`NewInstance id` handle (empty creation name) `Destroy` targets the
literal pod name `sandboxed-`, which differs from `Run`/`Exec`'s target
whenever `id ≠ "sandboxed-"`. -/
theorem c10_amended_pod_targets (w : World) :
    (∀ name lang opts hdl code body,
       (CreateSandbox w name lang opts).1 = Except.ok hdl →
       execTargets (Run w hdl code).2 = ["sandboxed-" ++ name] ∧
       (execTargets (Exec w hdl body).2).head? = some ("sandboxed-" ++ name) ∧
       (∀ p ∈ execTargets (Exec w hdl body).2, p = "sandboxed-" ++ name) ∧
       deleteTargets (Destroy w hdl).2 = ["sandboxed-" ++ name]) ∧
    (∀ id opts code body, w.newClient (namespaceOf opts) = none →
       execTargets (Run w (NewInstance id opts) code).2 = [id] ∧
       (execTargets (Exec w (NewInstance id opts) body).2).head? = some id ∧
       (∀ p ∈ execTargets (Exec w (NewInstance id opts) body).2, p = id) ∧
       deleteTargets (Destroy w (NewInstance id opts)).2 = ["sandboxed-" ++ ""] ∧
       ("sandboxed-" ++ "" : String) = "sandboxed-" ∧
       (id ≠ "sandboxed-" → ([id] : List String) ≠ ["sandboxed-"])) := by
  constructor
  · intro name lang opts hdl code body hok
    simp only [CreateSandbox] at hok
    cases hL : LanguageLookup lang with
    | error e => rw [hL] at hok; simp at hok
    | ok image =>
      rw [hL] at hok
      dsimp only at hok
      cases hC : w.newClient (namespaceOf opts) with
      | some e => rw [hC] at hok; simp at hok
      | none =>
        rw [hC] at hok
        dsimp only at hok
        cases hP : w.createPod ("sandboxed-" ++ name) (namespaceOf opts) image
            (labelsOf opts) with
        | some e => rw [hP] at hok; simp at hok
        | none =>
          rw [hP] at hok
          dsimp only at hok
          cases hW : w.waitReady ("sandboxed-" ++ name) (namespaceOf opts) 120 with
          | some e => rw [hW] at hok; simp at hok
          | none =>
            rw [hW] at hok
            simp only [Except.ok.injEq] at hok
            subst hok
            have hex := exec_targets_handle_id w
              { driver := "kubernetes", id := "sandboxed-" ++ name, lcName := name,
                lcLanguage := lang, opts := opts } body rfl hC
            refine ⟨?_, hex.1, hex.2, ?_⟩
            · cases hE : ExecCommand w (clientNamespace (namespaceOf opts))
                  ("sandboxed-" ++ name) (namespaceOf opts) ["sh", "-c", code] <;>
                simp [Run, execTargets, hC, hE]
            · simp [Destroy, deleteTargets, hC]
  · intro id opts code body hC
    have hex := exec_targets_handle_id w (NewInstance id opts) body rfl hC
    refine ⟨?_, hex.1, hex.2, ?_, rfl, ?_⟩
    · cases hE : ExecCommand w (clientNamespace (namespaceOf opts)) id
          (namespaceOf opts) ["sh", "-c", code] <;>
        simp [Run, NewInstance, execTargets, hC, hE]
    · simp [Destroy, NewInstance, deleteTargets, hC]
    · intro hne hEq
      simp at hEq
      exact hne hEq

/-- C10 witness for the amended claim: a `NewInstance "pod-x"` handle
runs and execs in pod `pod-x` but destroys pod `sandboxed-`. -/
theorem c10_witness :
    execTargets (Run wOk (NewInstance "pod-x" []) "ls").2 = ["pod-x"] ∧
    (execTargets (Exec wOk (NewInstance "pod-x" []) "body").2).head? = some "pod-x" ∧
    deleteTargets (Destroy wOk (NewInstance "pod-x" [])).2 = ["sandboxed-" ++ ""] := by
  have h := (c10_amended_pod_targets wOk).2 "pod-x" [] "ls" "body" rfl
  exact ⟨h.1, h.2.1, h.2.2.2.1⟩

/-- Helper for C3: a successful poll found a fetched status with the
ready condition true, strictly before the deadline. -/
theorem waitAux_ok_ready (g : Nat → Except String PodStatus) (name : String) (t : Nat) :
    ∀ fuel i, t - 2 * i ≤ fuel →
      (WaitForPodReadyAux g name t i).1 = Except.ok () →
      ∃ j p, g j = Except.ok p ∧ podIsReady p = true ∧ 2 * j < t := by
  intro fuel
  induction fuel with
  | zero =>
    intro i hle hok
    rw [WaitForPodReadyAux, dif_pos (by omega)] at hok
    simp at hok
  | succ fuel ih =>
    intro i hle hok
    rw [WaitForPodReadyAux] at hok
    by_cases hti : t ≤ 2 * i
    · rw [dif_pos hti] at hok
      simp at hok
    · rw [dif_neg hti] at hok
      cases hgi : g i with
      | error e =>
        rw [hgi] at hok
        simp at hok
      | ok p =>
        rw [hgi] at hok
        dsimp only at hok
        by_cases hr : podIsReady p = true
        · exact ⟨i, p, hgi, hr, by omega⟩
        · rw [if_neg hr] at hok
          exact ih (i + 1) (by omega) (by simpa using hok)

/-- Helper for C3: when every fetched status exists and is non-ready, the
poll ends in the timeout error. -/
theorem waitAux_never_ready_timeout (g : Nat → Except String PodStatus) (name : String)
    (t : Nat) (hg : ∀ j, ∃ p, g j = Except.ok p ∧ podIsReady p = false) :
    ∀ fuel i, t - 2 * i ≤ fuel →
      (WaitForPodReadyAux g name t i).1 = Except.error (timeoutMsg name) := by
  intro fuel
  induction fuel with
  | zero =>
    intro i hle
    rw [WaitForPodReadyAux, dif_pos (by omega)]
  | succ fuel ih =>
    intro i hle
    rw [WaitForPodReadyAux]
    by_cases hti : t ≤ 2 * i
    · rw [dif_pos hti]
    · rw [dif_neg hti]
      obtain ⟨p, hgp, hnr⟩ := hg i
      rw [hgp]
      dsimp only
      rw [if_neg (by simp [hnr])]
      exact ih (i + 1) (by omega)

/-- Helper for C3: the fetch times recorded by the poll start at the
current clock and advance by exactly the fixed 2-second sleep between
consecutive fetches. -/
theorem waitAux_fetch_times (g : Nat → Except String PodStatus) (name : String)
    (t : Nat) :
    ∀ fuel i, t - 2 * i ≤ fuel →
      ((WaitForPodReadyAux g name t i).2.head? = some (2 * i) ∨
        (WaitForPodReadyAux g name t i).2 = []) ∧
      List.Chain' (fun a b => b = a + 2) (WaitForPodReadyAux g name t i).2 := by
  intro fuel
  induction fuel with
  | zero =>
    intro i hle
    rw [WaitForPodReadyAux, dif_pos (by omega)]
    exact ⟨Or.inr rfl, List.chain'_nil⟩
  | succ fuel ih =>
    intro i hle
    rw [WaitForPodReadyAux]
    by_cases hti : t ≤ 2 * i
    · rw [dif_pos hti]
      exact ⟨Or.inr rfl, List.chain'_nil⟩
    · rw [dif_neg hti]
      cases hgi : g i with
      | error e =>
        dsimp only
        exact ⟨Or.inl rfl, List.chain'_singleton _⟩
      | ok p =>
        dsimp only
        by_cases hr : podIsReady p = true
        · rw [if_pos hr]
          exact ⟨Or.inl rfl, List.chain'_singleton _⟩
        · rw [if_neg hr]
          obtain ⟨ihh, ihc⟩ := ih (i + 1) (by omega)
          refine ⟨Or.inl rfl, List.chain'_cons'.2 ⟨?_, ihc⟩⟩
          intro y hy
          rcases ihh with h1 | h1
          · rw [h1] at hy
            simp only [Option.mem_def, Option.some.injEq] at hy
            omega
          · rw [h1] at hy
            simp at hy

/-- Helper for C3: the clock at exit is bounded by the deadline plus one
poll interval. -/
theorem waitAux_time_bound (g : Nat → Except String PodStatus) (name : String)
    (t : Nat) :
    ∀ fuel i, t - 2 * i ≤ fuel → 2 * i < t + 2 →
      2 * i + 2 * (WaitForPodReadyAux g name t i).2.length < t + 2 := by
  intro fuel
  induction fuel with
  | zero =>
    intro i hle hlt
    rw [WaitForPodReadyAux, dif_pos (by omega)]
    simpa using hlt
  | succ fuel ih =>
    intro i hle hlt
    rw [WaitForPodReadyAux]
    by_cases hti : t ≤ 2 * i
    · rw [dif_pos hti]
      simpa using hlt
    · rw [dif_neg hti]
      cases hgi : g i with
      | error e =>
        dsimp only
        simp only [List.length_cons, List.length_nil]
        omega
      | ok p =>
        dsimp only
        by_cases hr : podIsReady p = true
        · rw [if_pos hr]
          simp only [List.length_cons, List.length_nil]
          omega
        · rw [if_neg hr]
          have hb := ih (i + 1) (by omega) (by omega)
          simp only [List.length_cons]
          omega

/-- C3: the readiness poll returns success only when some fetched status
reports the ready condition true before the deadline; if every fetch
returns a (non-erroring) status that is not ready, it returns the timeout
error once the deadline elapses; the recorded fetch times start at 0 and
are spaced by exactly the fixed 2-second sleep; and the elapsed time at
exit (2 seconds per fetch, fetches modelled as instantaneous) never
exceeds the deadline plus one poll interval. -/
theorem c3_readiness_polling (g : Nat → Except String PodStatus) (name : String)
    (t : Nat) :
    ((WaitForPodReady g name t).1 = Except.ok () →
      ∃ j p, g j = Except.ok p ∧ podIsReady p = true ∧ 2 * j < t) ∧
    ((∀ j, ∃ p, g j = Except.ok p ∧ podIsReady p = false) →
      (WaitForPodReady g name t).1 = Except.error (timeoutMsg name)) ∧
    ((WaitForPodReady g name t).2.head? = some 0 ∨ (WaitForPodReady g name t).2 = []) ∧
    List.Chain' (fun a b => b = a + 2) (WaitForPodReady g name t).2 ∧
    2 * (WaitForPodReady g name t).2.length < t + 2 := by
  have h3 := waitAux_fetch_times g name t t 0 (by omega)
  have h4 := waitAux_time_bound g name t t 0 (by omega) (by omega)
  exact ⟨fun hok => waitAux_ok_ready g name t t 0 (by omega) hok,
         fun hg => waitAux_never_ready_timeout g name t hg t 0 (by omega),
         by simpa [WaitForPodReady] using h3.1,
         h3.2,
         by simpa [WaitForPodReady] using h4⟩

/-- C3 witness: a pod that never becomes ready makes a 5-second wait end
in the timeout error. -/
theorem c3_witness :
    (WaitForPodReady gpNeverReady "pod-w" 5).1 = Except.error (timeoutMsg "pod-w") :=
  (c3_readiness_polling gpNeverReady "pod-w" 5).2.1
    (fun _ => ⟨{ conditions := [] }, rfl, rfl⟩)

end Sandboxed
